import Mathlib

/-!
Verification development for the Zero-Trust workforce identity-monitoring
console.  The repository's observable code (the mock Node demo server in
`server/index.js`, the React admin pages, `api.js`, `deviceFingerprint.js`,
and the browser location capture module) is shallowly embedded below; the
FastAPI backend that implements the risk engine, session registry, device
trust registry and lockdown workflow is not part of the observable sources,
so those operations are modelled from the specification where noted.
-/

namespace ZeroTrust

/-! ## JavaScript primitive semantics

Helpers that mirror the JavaScript builtins used by the sources:
`String.prototype.trim`, truthiness of strings, `parseInt` (radix 10,
`none` standing for `NaN`), `Math.max`/`Math.min` (NaN-propagating),
arithmetic on possibly-NaN numbers, `Array.prototype.slice` (with
`ToIntegerOrInfinity(NaN) = 0`), `String.prototype.toLowerCase` and
`String.prototype.includes`. -/

/-- JavaScript whitespace characters recognised by `String.prototype.trim`. -/
def jsWhitespace (c : Char) : Bool :=
  c == ' ' || c == '\t' || c == '\n' || c == '\r' || c == '\x0b' || c == '\x0c'

/-- JS `String.prototype.trim`: strip leading and trailing whitespace. -/
def trimJS (s : String) : String :=
  String.mk (((s.toList.dropWhile jsWhitespace).reverse.dropWhile jsWhitespace).reverse)

/-- Truthiness of an optional string field: `undefined` and `""` are falsy. -/
def jsFalsyStr : Option String → Bool
  | none => true
  | some s => s.isEmpty

/-- Numeric value of a list of decimal digits. -/
def digitsVal (ds : List Char) : Nat :=
  ds.foldl (fun acc c => acc * 10 + (c.toNat - '0'.toNat)) 0

/-- JS `parseInt(s, 10)`: skip leading whitespace, optional sign, then leading
decimal digits; `none` models `NaN` (no digits found). -/
def parseIntJS (s : String) : Option Int :=
  let cs := s.toList.dropWhile jsWhitespace
  match cs with
  | '-' :: rest =>
      let ds := rest.takeWhile Char.isDigit
      if ds.isEmpty then none else some (-(digitsVal ds : Int))
  | '+' :: rest =>
      let ds := rest.takeWhile Char.isDigit
      if ds.isEmpty then none else some (digitsVal ds : Int)
  | _ =>
      let ds := cs.takeWhile Char.isDigit
      if ds.isEmpty then none else some (digitsVal ds : Int)

/-- JS `Math.max(a, x)` where `x` may be `NaN` (`none`): NaN propagates. -/
def maxNaN (a : Int) : Option Int → Option Int
  | none => none
  | some x => some (max a x)

/-- JS `Math.min(a, x)` where `x` may be `NaN` (`none`): NaN propagates. -/
def minNaN (a : Int) : Option Int → Option Int
  | none => none
  | some x => some (min a x)

/-- Addition on possibly-NaN numbers. -/
def addNaN : Option Int → Option Int → Option Int
  | some a, some b => some (a + b)
  | _, _ => none

/-- Subtraction on possibly-NaN numbers. -/
def subNaN : Option Int → Option Int → Option Int
  | some a, some b => some (a - b)
  | _, _ => none

/-- Multiplication on possibly-NaN numbers. -/
def mulNaN : Option Int → Option Int → Option Int
  | some a, some b => some (a * b)
  | _, _ => none

/-- JS `ToIntegerOrInfinity` on a possibly-NaN argument: `NaN` becomes `0`. -/
def toIntOr0 : Option Int → Int
  | none => 0
  | some v => v

/-- JS `Array.prototype.slice(start, end)` with possibly-NaN bounds,
following the ECMAScript clamping rules. -/
def sliceJS (l : List α) (s e : Option Int) : List α :=
  let len : Int := l.length
  let rel : Int → Int := fun i => if i < 0 then max (len + i) 0 else min i len
  let f := rel (toIntOr0 s)
  let t := rel (toIntOr0 e)
  (l.drop f.toNat).take (t - f).toNat

/-- JS `String.prototype.toLowerCase` (ASCII case mapping as used here). -/
def toLowerStr (s : String) : String :=
  String.mk (s.toList.map Char.toLower)

/-- JS `String.prototype.includes`: substring containment. -/
def strContains (hay needle : String) : Bool :=
  (hay.toList.tails.any fun t => needle.toList.isPrefixOf t)

/-! ## Mock demo server (`server/index.js`) and its datastore (`server/data.js`) -/

/-- A user row of the in-memory demo datastore. -/
structure MockUser where
  id : String
  username : String
  role : String
  created_at : String
deriving DecidableEq, Repr

/-- A log row of the in-memory demo datastore. -/
structure MockLog where
  id : String
  userId : String
  action : String
  ip : String
  timestamp : String
deriving DecidableEq, Repr

/-- The seeded `users` array of `server/data.js`. -/
def demoUsers : List MockUser :=
  [⟨"1", "alice", "admin", "t0"⟩, ⟨"2", "bob", "user", "t0"⟩, ⟨"3", "carol", "user", "t0"⟩]

/-- The seeded `logs` array of `server/data.js` (ids and times abstracted). -/
def demoLogs : List MockLog :=
  [⟨"l1", "2", "login", "10.0.0.1", "t0"⟩,
   ⟨"l2", "3", "file_open_confidential", "10.0.0.2", "t0"⟩,
   ⟨"l3", "2", "usb_detect", "10.0.0.1", "t0"⟩]

/-- The JSON body of a `POST /login` request; both fields may be absent. -/
structure LoginBody where
  username : Option String
  password : Option String
deriving DecidableEq, Repr

/-- Outcome of the mock server's `POST /login` handler.  A successful
response carries the JWT payload fields (the signed tokens are a
deterministic function of these and the server secret). -/
inductive LoginResult where
  | badRequest (detail : String)
  | unauthorized (detail : String)
  | ok (id username role : String)
deriving DecidableEq, Repr

/-- HTTP status code of a `LoginResult`. -/
def LoginResult.status : LoginResult → Nat
  | .badRequest _ => 400
  | .unauthorized _ => 401
  | .ok _ _ _ => 200

/-- The mock server's `POST /login` handler (`server/index.js` lines 39-50):
destructures only `username` from the body, 400 when it is falsy, 401 when no
user matches, otherwise issues tokens for the matched user. -/
def loginHandler (users : List MockUser) (body : LoginBody) : LoginResult :=
  if jsFalsyStr body.username then .badRequest "username required"
  else
    let u := body.username.getD ""
    match users.find? (fun x => x.username == u) with
    | none => .unauthorized "Invalid credentials"
    | some user => .ok user.id user.username user.role

/-- Query parameters of the admin listing endpoints (absent params are `none`). -/
structure ListQuery where
  page : Option String
  limit : Option String
  search : Option String
  role : Option String
  action : Option String
  user_id : Option String
deriving Repr

/-- The handlers' `Math.max(1, parseInt(req.query.page || "1", 10))`. -/
def effPage (q : ListQuery) : Option Int :=
  maxNaN 1 (parseIntJS (if jsFalsyStr q.page then "1" else q.page.getD ""))

/-- The handlers' `Math.min(100, Math.max(1, parseInt(req.query.limit || "25", 10)))`. -/
def effLimit (q : ListQuery) : Option Int :=
  minNaN 100 (maxNaN 1 (parseIntJS (if jsFalsyStr q.limit then "25" else q.limit.getD "")))

/-- A paginated listing response: `{ total, page, limit, items }`. -/
structure ListResponse (α : Type) where
  total : Nat
  page : Option Int
  limit : Option Int
  items : List α
deriving Repr

/-- Filtering step of `GET /admin/users`: username substring search
(lower-cased) then exact role filter, each applied only when truthy. -/
def filterUsers (users : List MockUser) (q : ListQuery) : List MockUser :=
  let search := toLowerStr (q.search.getD "")
  let r1 := if search.isEmpty then users
            else users.filter (fun u => strContains (toLowerStr u.username) search)
  match q.role with
  | none => r1
  | some r => if r.isEmpty then r1 else r1.filter (fun u => u.role == r)

/-- The mock server's `GET /admin/users` handler (lines 93-109). -/
def adminUsersHandler (users : List MockUser) (q : ListQuery) : ListResponse MockUser :=
  let page := effPage q
  let limit := effLimit q
  let results := filterUsers users q
  let start := mulNaN (subNaN page (some 1)) limit
  { total := results.length, page := page, limit := limit,
    items := sliceJS results start (addNaN start limit) }

/-- Filtering step of `GET /logs`: exact `action` and `user_id` filters,
each applied only when the query parameter is truthy (present and
non-empty). -/
def filterLogs (logs : List MockLog) (q : ListQuery) : List MockLog :=
  let r1 := match q.action with
            | none => logs
            | some a => if a.isEmpty then logs
                        else logs.filter (fun l => l.action == a)
  match q.user_id with
  | none => r1
  | some uid => if uid.isEmpty then r1
                else r1.filter (fun l => l.userId == uid)

/-- The mock server's `GET /logs` handler (lines 167-182). -/
def logsHandler (logs : List MockLog) (q : ListQuery) : ListResponse MockLog :=
  let page := effPage q
  let limit := effLimit q
  let results := filterLogs logs q
  let start := mulNaN (subNaN page (some 1)) limit
  { total := results.length, page := page, limit := limit,
    items := sliceJS results start (addNaN start limit) }

/-! ## Risk classification (`LoginHistory.jsx`) -/

/-- Function `getRiskBadgeClass` from `LoginHistory.jsx` lines 58-62: the badge class
the admin UI assigns to a session from its risk score. -/
def getRiskBadgeClass (riskScore : ℚ) : String :=
  if 0.6 ≤ riskScore then "risk-badge critical"
  else if 0.3 ≤ riskScore then "risk-badge suspicious"
  else "risk-badge normal"

/-- Modelled from the spec: classification thresholds of the Risk Assessment
Engine (§4.2) — `score ≥ 0.6 → critical`, `0.3 ≤ score < 0.6 → suspicious`,
`score < 0.3 → normal`.  The backend engine is absent from the observable
sources. -/
def statusOfScore (s : ℚ) : String :=
  if 0.6 ≤ s then "critical"
  else if 0.3 ≤ s then "suspicious"
  else "normal"

/-! ## Geo context: browser capture (`browserLocation.js`), login headers
(`api.js` `loginUser`) and the spec-modelled backend resolver -/

/-- The browser-location record produced by `captureBrowserLocation`:
`permission_status` with `latitude`/`longitude` either numbers or `null`
(`none`). -/
structure BrowserLocation where
  permission_status : String
  latitude : Option ℚ
  longitude : Option ℚ
  accuracy_m : Option ℚ
deriving DecidableEq, Repr

/-- The coordinate headers attached by `loginUser` (`api.js` lines 63-73):
`X-User-Latitude`/`X-User-Longitude` are sent iff `permission_status` is
`"granted"` and both coordinates are numeric. -/
def browserCoordHeaders (data : Option BrowserLocation) : Option (ℚ × ℚ) :=
  match data with
  | none => none
  | some loc =>
    if loc.permission_status == "granted" then
      match loc.latitude, loc.longitude with
      | some lat, some lon => some (lat, lon)
      | _, _ => none
    else none

/-- A normalized geo record as described in §4.1. -/
structure GeoContext where
  country : Option String
  city : Option String
  latitude : Option ℚ
  longitude : Option ℚ
  source : String
deriving DecidableEq, Repr

/-- Result of an IP-to-location lookup. -/
structure IpLookup where
  country : String
  city : String
  latitude : ℚ
  longitude : ℚ
deriving DecidableEq, Repr

/-- Modelled from the spec: the backend GeoContext Resolver (§4.1) is absent
from the observable sources.  Prefer browser coordinates when
`permission_status == granted` and both lat/long are numeric; otherwise fall
back to IP lookup; if both fail, emit `unknown` with null coordinates. -/
def resolveGeoContext (browser : Option BrowserLocation) (ip : Option IpLookup) :
    GeoContext :=
  match browserCoordHeaders browser with
  | some (lat, lon) => { country := none, city := none,
                         latitude := some lat, longitude := some lon,
                         source := "browser" }
  | none =>
    match ip with
    | some r => { country := some r.country, city := some r.city,
                  latitude := some r.latitude, longitude := some r.longitude,
                  source := "ip_lookup" }
    | none => { country := none, city := none, latitude := none,
                longitude := none, source := "unknown" }

/-! ## Risk Assessment Engine (spec-modelled, §4.2) -/

/-- Modelled from the spec: the Risk Assessment Engine (§4.2) is absent from
the observable sources.  Each triggered factor contributes its fixed weight;
unknown geo contributes 0 (neutral); the score is capped at 1. -/
def assessScore (newDevice countryMismatch impossibleTravel failedBurst : Bool)
    (geo : GeoContext) : ℚ :=
  let raw : ℚ :=
    (if newDevice then 0.35 else 0) + (if countryMismatch then 0.25 else 0) +
    (if impossibleTravel then 0.30 else 0) + (if failedBurst then 0.25 else 0) +
    (if geo.source == "unknown" then 0 else 0)
  min 1 raw

/-! ## Lockdown workflow

The role gate and reason validation of the admin UI (`UserManagement.jsx`,
`handleLockUnlock`) are in the observable sources; the backend
request/approval state machine (§4.5) is modelled from the spec. -/

/-- The JSON body `{ action, reason: reason.trim() || null }` posted to
`/admin/users/:id/lock-unlock`. -/
structure LockUnlockBody where
  action : String
  reason : Option String
deriving DecidableEq, Repr

/-- Function `handleLockUnlock` from `UserManagement.jsx` lines 89-116: when the
current role is `admin` and the trimmed reason is empty, validation fails and
no request is sent (`none`); otherwise the request body is submitted. -/
def handleLockUnlock (currentRole : String) (modalAction : String)
    (reason : String) : Option LockUnlockBody :=
  if currentRole == "admin" && (trimJS reason).isEmpty then none
  else some { action := modalAction,
              reason := if (trimJS reason).isEmpty then none else some (trimJS reason) }

/-- An account as mutated by the lockdown workflow (§3). -/
structure WfAccount where
  id : String
  locked : Bool
  failed_login_attempts : Nat
deriving DecidableEq, Repr

/-- LockRequest states (§3). -/
inductive LRState where
  | pending
  | approved
  | rejected
  | executed
deriving DecidableEq, Repr

/-- A LockRequest row (§3). -/
structure LockRequest where
  id : Nat
  target_account_id : String
  action : String
  requested_by_role : String
  reason : Option String
  state : LRState
  comment : Option String
deriving DecidableEq, Repr

/-- Shared store of the lockdown workflow. -/
structure WfState where
  accounts : List WfAccount
  requests : List LockRequest
  nextId : Nat
deriving DecidableEq, Repr

/-- Outcome of a lockdown-workflow call (§4.5, §7). -/
inductive WfResult where
  | validationError
  | forbidden
  | notFound
  | conflict
  | requestCreated (id : Nat)
  | executed
  | rejected
deriving DecidableEq, Repr

/-- Apply a lock or unlock to the target account: lock sets `locked`;
unlock clears it and resets `failed_login_attempts` (§4.5). -/
def applyLockAction (accounts : List WfAccount) (target action : String) :
    List WfAccount :=
  accounts.map fun a =>
    if a.id == target then
      if action == "lock" then { a with locked := true }
      else { a with locked := false, failed_login_attempts := 0 }
    else a

/-- Does the store already hold a pending request for this target and
action?  Spec §4.5: re-requesting must be rejected with a DuplicateRequest
error. -/
def hasPendingDuplicate (requests : List LockRequest) (target action : String) :
    Bool :=
  requests.any fun r =>
    r.target_account_id == target && r.action == action && r.state == .pending

/-- Modelled from the spec: the backend `/admin/users/:id/lock-unlock`
handler (§4.5) is absent from the observable sources.  A `superadmin`
executes immediately (the audit row is created already `executed`); an
`admin` must supply a reason (ValidationError otherwise) and only creates a
`pending` request, leaving the accounts untouched — unless a pending
request for the same target and action already exists, which is rejected
with a DuplicateRequest conflict and creates nothing. -/
def submitLockRequest (st : WfState) (actorRole target action : String)
    (reason : Option String) : WfState × WfResult :=
  if actorRole == "superadmin" then
    ({ accounts := applyLockAction st.accounts target action,
       requests := st.requests ++
         [{ id := st.nextId, target_account_id := target, action := action,
            requested_by_role := actorRole, reason := reason,
            state := .executed, comment := none }],
       nextId := st.nextId + 1 }, .executed)
  else if actorRole == "admin" then
    match reason with
    | none => (st, .validationError)
    | some r =>
      if hasPendingDuplicate st.requests target action then (st, .conflict)
      else
        ({ st with
           requests := st.requests ++
             [{ id := st.nextId, target_account_id := target, action := action,
                requested_by_role := actorRole, reason := some r,
                state := .pending, comment := none }],
           nextId := st.nextId + 1 }, .requestCreated st.nextId)
  else (st, .forbidden)

/-- Modelled from the spec: the backend `/admin/requests/:id/review` handler
(§4.5) is absent from the observable sources.  Only a `superadmin` may
review; an approved request is applied to the target account and stored as
`executed` (approval *is* execution); a rejected request leaves the account
untouched. -/
def reviewRequest (st : WfState) (actorRole : String) (reqId : Nat)
    (decision : String) (comment : Option String) : WfState × WfResult :=
  if actorRole != "superadmin" then (st, .forbidden)
  else
    match st.requests.find? (fun r => r.id == reqId) with
    | none => (st, .notFound)
    | some r =>
      if r.state != .pending then (st, .conflict)
      else if decision == "approve" then
        ({ st with
           accounts := applyLockAction st.accounts r.target_account_id r.action,
           requests := st.requests.map fun x =>
             if x.id == reqId then { x with state := .executed, comment := comment }
             else x }, .executed)
      else if decision == "reject" then
        ({ st with
           requests := st.requests.map fun x =>
             if x.id == reqId then { x with state := .rejected, comment := comment }
             else x }, .rejected)
      else (st, .validationError)

/-! ## Session Registry (spec-modelled, §4.4) -/

/-- An account as seen by the login path (§3). -/
structure SAccount where
  id : String
  username : String
  credential_hash : String
  failed_login_attempts : Nat
  locked : Bool
deriving DecidableEq, Repr

/-- A LoginSession row (§3). -/
structure Session where
  id : Nat
  account_id : String
  risk_score : ℚ
  status : String
  success : Bool
  login_at : Nat
  logout_at : Option Nat
  is_active : Bool
deriving DecidableEq, Repr

/-- Shared store of accounts and login sessions. -/
structure AuthState where
  accounts : List SAccount
  sessions : List Session
  nextSession : Nat
deriving DecidableEq, Repr

/-- Outcome of a login attempt as surfaced to the caller (§7): the error
message must not leak whether the account exists. -/
inductive AuthOutcome where
  | ok (accountId : String) (sessionId : Nat)
  | err (detail : String)
  | lockedOut (detail : String)
deriving DecidableEq, Repr

/-- The single generic message returned for any bad-credential failure. -/
def genericLoginError : String := "Invalid credentials"

/-- Password verification against the stored credential hash; hashing
mechanics are out of the spec's scope, so the hash of a password is the
password itself here. -/
def credentialMatches (acct : SAccount) (password : String) : Bool :=
  acct.credential_hash == password

/-- Modelled from the spec: the backend login handler / `recordAttempt`
(§4.4, §7) is absent from the observable sources.  On bad credentials the
account's failure counter is incremented and a LoginSession row is still
created with a risk assessment over the failed attempt; on success the
counter resets and an active session is stored.  The same generic error is
returned for an unknown username and for a wrong password. -/
def loginAttempt (st : AuthState) (username password : String)
    (geo : GeoContext) (t : Nat) : AuthState × AuthOutcome :=
  match st.accounts.find? (fun a => a.username == username) with
  | none => (st, .err genericLoginError)
  | some acct =>
    if acct.locked then (st, .lockedOut "Account locked")
    else if credentialMatches acct password then
      let score := assessScore false false false (acct.failed_login_attempts ≥ 3) geo
      ({ accounts := st.accounts.map fun a =>
           if a.id == acct.id then { a with failed_login_attempts := 0 } else a,
         sessions := st.sessions ++
           [{ id := st.nextSession, account_id := acct.id, risk_score := score,
              status := statusOfScore score, success := true, login_at := t,
              logout_at := none, is_active := true }],
         nextSession := st.nextSession + 1 }, .ok acct.id st.nextSession)
    else
      let failed := acct.failed_login_attempts + 1
      let score := assessScore false false false (failed ≥ 3) geo
      ({ accounts := st.accounts.map fun a =>
           if a.id == acct.id then { a with failed_login_attempts := failed } else a,
         sessions := st.sessions ++
           [{ id := st.nextSession, account_id := acct.id, risk_score := score,
              status := statusOfScore score, success := false, login_at := t,
              logout_at := none, is_active := false }],
         nextSession := st.nextSession + 1 }, .err genericLoginError)

/-- Outcome of `closeSession`. -/
inductive CloseResult where
  | ok
  | notFound
deriving DecidableEq, Repr

/-- Modelled from the spec: `closeSession(session_id)` (§4.4) is absent from
the observable sources (the demo server's `POST /logout` is stateless).  It
sets `logout_at` and `is_active := false`; closing an already-closed session
is a no-op, not an error. -/
def closeSession (st : AuthState) (sid : Nat) (t : Nat) : AuthState × CloseResult :=
  match st.sessions.find? (fun s => s.id == sid) with
  | none => (st, .notFound)
  | some s =>
    if s.is_active then
      ({ st with sessions := st.sessions.map fun x =>
           if x.id == sid then { x with logout_at := some t, is_active := false }
           else x }, .ok)
    else (st, .ok)

/-! ## Device Trust Registry (spec-modelled, §4.3) -/

/-- Device lifecycle states (§4.3). -/
inductive DeviceStatus where
  | pending
  | active
  | inactive
  | revoked
deriving DecidableEq, Repr

/-- A registered device (§3). -/
structure Device where
  device_uuid : String
  secret_token : String
  owner_account_id : String
  status : DeviceStatus
  last_heartbeat_at : Option Nat
  trust_level : Int
deriving DecidableEq, Repr

/-- Outcome of a heartbeat call (§4.3, §7). -/
inductive HeartbeatResult where
  | ok
  | unauthorized
  | notRegistered
  | deviceRevoked
deriving DecidableEq, Repr

/-- Modelled from the spec: the backend `/agent/heartbeat` handler (§4.3) is
absent from the observable sources.  It requires a matching non-revoked
device and a correct token; it updates `last_heartbeat_at` and resumes an
`inactive` device to `active`.  Token mismatch is `Unauthorized`; an unknown
device is `NotRegistered`. -/
def heartbeat (reg : List Device) (uuid token : String) (t : Nat) :
    List Device × HeartbeatResult :=
  match reg.find? (fun d => d.device_uuid == uuid) with
  | none => (reg, .notRegistered)
  | some d =>
    if d.secret_token != token then (reg, .unauthorized)
    else if d.status == .revoked then (reg, .deviceRevoked)
    else
      (reg.map fun x =>
        if x.device_uuid == uuid then
          { x with last_heartbeat_at := some t,
                   status := if x.status == .inactive then .active else x.status }
        else x, .ok)

/-! ## Device fingerprinting (`deviceFingerprint.js`)

`generateDeviceUUID` JSON-serialises a record of immutable device
properties, UTF-8-encodes it, hashes it with SHA-256 (Web Crypto
`crypto.subtle.digest`) and renders the 32-byte digest as lowercase hex
(`byte.toString(16).padStart(2, '0')`).  The SHA-256 of the Web Crypto API
is embedded below (FIPS 180-4). -/

/-- The sixteen lowercase hexadecimal digits. -/
def hexChars : List Char := "0123456789abcdef".toList

/-- The `n`-th lowercase hex digit. -/
def hexDigit (n : Nat) : Char := hexChars.getD n '0'

/-- JS `byte.toString(16).padStart(2, '0')` for a byte value. -/
def byteHex (b : Nat) : List Char := [hexDigit (b / 16 % 16), hexDigit (b % 16)]

/-- Render a byte list as a lowercase hex string. -/
def toHexString (bytes : List Nat) : String :=
  String.mk (bytes.map byteHex).flatten

/-- UTF-8 encoding of one character (`TextEncoder`). -/
def utf8EncodeChar (c : Char) : List Nat :=
  let n := c.toNat
  if n < 128 then [n]
  else if n < 2048 then [192 + n / 64, 128 + n % 64]
  else if n < 65536 then [224 + n / 4096, 128 + n / 64 % 64, 128 + n % 64]
  else [240 + n / 262144, 128 + n / 4096 % 64, 128 + n / 64 % 64, 128 + n % 64]

/-- UTF-8 encoding of a string (`TextEncoder.encode`). -/
def utf8Bytes (s : String) : List Nat :=
  (s.toList.map utf8EncodeChar).flatten

/-- JSON escaping of one character (`JSON.stringify` on strings). -/
def jsonEscapeChar (c : Char) : List Char :=
  if c == '"' then ['\\', '"']
  else if c == '\\' then ['\\', '\\']
  else if c == '\x08' then ['\\', 'b']
  else if c == '\x0c' then ['\\', 'f']
  else if c == '\n' then ['\\', 'n']
  else if c == '\r' then ['\\', 'r']
  else if c == '\t' then ['\\', 't']
  else if c.toNat < 32 then ['\\', 'u', '0', '0', hexDigit (c.toNat / 16), hexDigit (c.toNat % 16)]
  else [c]

/-- JS `JSON.stringify` of a string value. -/
def jsonStr (s : String) : String :=
  "\"" ++ String.mk (s.toList.map jsonEscapeChar).flatten ++ "\""

/-- The fingerprint record built by `generateDeviceUUID`
(`deviceFingerprint.js` lines 95-104). -/
structure Fingerprint where
  userAgent : String
  language : String
  platform : String
  screenWidth : Nat
  screenHeight : Nat
  timezone : String
deriving DecidableEq, Repr

/-- JS `JSON.stringify(fingerprint)`: key order fixed by the object literal. -/
def fingerprintString (fp : Fingerprint) : String :=
  "\x7b\"userAgent\":" ++ jsonStr fp.userAgent ++
  ",\"language\":" ++ jsonStr fp.language ++
  ",\"platform\":" ++ jsonStr fp.platform ++
  ",\"screen\":\x7b\"width\":" ++ toString fp.screenWidth ++
  ",\"height\":" ++ toString fp.screenHeight ++
  "\x7d,\"timezone\":" ++ jsonStr fp.timezone ++ "\x7d"

/-- Truncation to a 32-bit word. -/
def w32 (n : Nat) : Nat := n % 4294967296

/-- The 32-bit right rotation (inputs below `2^32`). -/
def rotr (n w : Nat) : Nat := w32 ((w >>> n) ||| (w <<< (32 - n)))

/-- SHA-256 `Σ₀`. -/
def bSig0 (x : Nat) : Nat := rotr 2 x ^^^ rotr 13 x ^^^ rotr 22 x

/-- SHA-256 `Σ₁`. -/
def bSig1 (x : Nat) : Nat := rotr 6 x ^^^ rotr 11 x ^^^ rotr 25 x

/-- SHA-256 `σ₀`. -/
def sSig0 (x : Nat) : Nat := rotr 7 x ^^^ rotr 18 x ^^^ (x >>> 3)

/-- SHA-256 `σ₁`. -/
def sSig1 (x : Nat) : Nat := rotr 17 x ^^^ rotr 19 x ^^^ (x >>> 10)

/-- SHA-256 `Ch` (32-bit complement of `x`). -/
def chF (x y z : Nat) : Nat := (x &&& y) ^^^ ((x ^^^ 4294967295) &&& z)

/-- SHA-256 `Maj`. -/
def majF (x y z : Nat) : Nat := (x &&& y) ^^^ (x &&& z) ^^^ (y &&& z)

/-- The sixty-four SHA-256 round constants. -/
def sha256K : List Nat :=
  [1116352408, 1899447441, 3049323471, 3921009573, 961987163,
   1508970993, 2453635748, 2870763221, 3624381080, 310598401,
   607225278, 1426881987, 1925078388, 2162078206, 2614888103,
   3248222580, 3835390401, 4022224774, 264347078, 604807628,
   770255983, 1249150122, 1555081692, 1996064986, 2554220882,
   2821834349, 2952996808, 3210313671, 3336571891, 3584528711,
   113926993, 338241895, 666307205, 773529912, 1294757372,
   1396182291, 1695183700, 1986661051, 2177026350, 2456956037,
   2730485921, 2820302411, 3259730800, 3345764771, 3516065817,
   3600352804, 4094571909, 275423344, 430227734, 506948616,
   659060556, 883997877, 958139571, 1322822218, 1537002063,
   1747873779, 1955562222, 2024104815, 2227730452, 2361852424,
   2428436474, 2756734187, 3204031479, 3329325298]

/-- The eight SHA-256 hash words. -/
structure Hash8 where
  h0 : Nat
  h1 : Nat
  h2 : Nat
  h3 : Nat
  h4 : Nat
  h5 : Nat
  h6 : Nat
  h7 : Nat
deriving DecidableEq, Repr

/-- SHA-256 initial hash value. -/
def sha256Init : Hash8 :=
  ⟨1779033703, 3144134277, 1013904242, 2773480762,
   1359893119, 2600822924, 528734635, 1541459225⟩

/-- The eight working registers of the compression loop. -/
structure Regs where
  a : Nat
  b : Nat
  c : Nat
  d : Nat
  e : Nat
  f : Nat
  g : Nat
  h : Nat

/-- One round of the SHA-256 compression loop. -/
def roundStep (k w : Nat) (r : Regs) : Regs :=
  let t1 := w32 (r.h + bSig1 r.e + chF r.e r.f r.g + k + w)
  let t2 := w32 (bSig0 r.a + majF r.a r.b r.c)
  { a := w32 (t1 + t2), b := r.a, c := r.b, d := r.c,
    e := w32 (r.d + t1), f := r.e, g := r.f, h := r.g }

/-- Extend the sixteen chunk words to the sixty-four schedule words. -/
def scheduleW (ws : List Nat) : List Nat :=
  (List.range 48).foldl (fun w _ =>
    let n := w.length
    w ++ [w32 (sSig1 (w.getD (n - 2) 0) + w.getD (n - 7) 0 +
               sSig0 (w.getD (n - 15) 0) + w.getD (n - 16) 0)]) ws

/-- Compress one 64-byte chunk into the running hash. -/
def sha256Compress (hs : Hash8) (chunk : List Nat) : Hash8 :=
  let ws0 := (List.range 16).map fun i =>
    chunk.getD (4 * i) 0 * 16777216 + chunk.getD (4 * i + 1) 0 * 65536 +
    chunk.getD (4 * i + 2) 0 * 256 + chunk.getD (4 * i + 3) 0
  let w := scheduleW ws0
  let r0 : Regs := ⟨hs.h0, hs.h1, hs.h2, hs.h3, hs.h4, hs.h5, hs.h6, hs.h7⟩
  let r := (List.range 64).foldl
    (fun r i => roundStep (sha256K.getD i 0) (w.getD i 0) r) r0
  ⟨w32 (hs.h0 + r.a), w32 (hs.h1 + r.b), w32 (hs.h2 + r.c), w32 (hs.h3 + r.d),
   w32 (hs.h4 + r.e), w32 (hs.h5 + r.f), w32 (hs.h6 + r.g), w32 (hs.h7 + r.h)⟩

/-- Merkle-Damgård padding: `0x80`, zeros to 56 mod 64, 64-bit big-endian
bit length. -/
def sha256Pad (msg : List Nat) : List Nat :=
  let L := msg.length
  let kz := (119 - L % 64) % 64
  let bitLen := L * 8
  msg ++ [128] ++ List.replicate kz 0 ++
    [bitLen / 72057594037927936 % 256, bitLen / 281474976710656 % 256,
     bitLen / 1099511627776 % 256, bitLen / 4294967296 % 256,
     bitLen / 16777216 % 256, bitLen / 65536 % 256, bitLen / 256 % 256, bitLen % 256]

/-- Split a padded message into 64-byte chunks. -/
def chunks64 (l : List Nat) : List (List Nat) :=
  (List.range (l.length / 64)).map fun i => (l.drop (64 * i)).take 64

/-- Big-endian bytes of one 32-bit word. -/
def wordBytes (w : Nat) : List Nat :=
  [w / 16777216 % 256, w / 65536 % 256, w / 256 % 256, w % 256]

/-- SHA-256 of a byte list: the 32-byte digest. -/
def sha256 (msg : List Nat) : List Nat :=
  let hs := (chunks64 (sha256Pad msg)).foldl sha256Compress sha256Init
  wordBytes hs.h0 ++ wordBytes hs.h1 ++ wordBytes hs.h2 ++ wordBytes hs.h3 ++
  wordBytes hs.h4 ++ wordBytes hs.h5 ++ wordBytes hs.h6 ++ wordBytes hs.h7

/-- Function `generateDeviceUUID` (`deviceFingerprint.js` lines 83-131): SHA-256 of
the JSON fingerprint, rendered as 64 lowercase hex characters.  It is a pure
function of the fingerprint record, so identical inputs give identical
output. -/
def generateDeviceUUID (fp : Fingerprint) : String :=
  toHexString (sha256 (utf8Bytes (fingerprintString fp)))

/-- Function `getOrCreateDeviceUUID` (`deviceFingerprint.js` lines 159-188) with
`localStorage` passed explicitly: reuse a stored 64-character UUID, else
regenerate (dropping corrupted entries) and store the fresh one. -/
def getOrCreateDeviceUUID (fp : Fingerprint) (store : Option String) :
    String × Option String :=
  match store with
  | some existing =>
    if existing.length == 64 then (existing, some existing)
    else
      let fresh := generateDeviceUUID fp
      (fresh, some fresh)
  | none =>
    let fresh := generateDeviceUUID fp
    (fresh, some fresh)

/-- A lowercase hexadecimal character. -/
def isLowerHexChar (c : Char) : Bool :=
  ('0' ≤ c && c ≤ '9') || ('a' ≤ c && c ≤ 'f')

/-! ## Helper lemmas -/

/-- Lemma: `find?` over an id-preserving conditional update returns the updated
element. -/
theorem find?_condUpdate {α : Type} (p : α → Bool) (f : α → α)
    (hpf : ∀ a, p a = true → p (f a) = true) (l : List α) (a : α)
    (hf : l.find? p = some a) :
    (l.map fun x => if p x then f x else x).find? p = some (f a) := by
  induction l with
  | nil => simp at hf
  | cons b bs ih =>
    by_cases hb : p b = true
    · rw [List.find?_cons_of_pos _ hb] at hf
      injection hf with h
      subst h
      simp only [List.map_cons, if_pos hb]
      exact List.find?_cons_of_pos _ (hpf b hb)
    · rw [List.find?_cons_of_neg _ hb] at hf
      simp only [List.map_cons, if_neg hb]
      rw [List.find?_cons_of_neg _ hb]
      exact ih hf

/-- A slice with two NaN bounds is empty. -/
theorem sliceJS_none_none (l : List α) : sliceJS l none none = [] := by
  simp [sliceJS, toIntOr0]

/-- A slice of width `lim` has at most `lim` elements. -/
theorem sliceJS_length_le (l : List α) (s : Int) (lim : Nat) :
    (sliceJS l (some s) (some (s + lim))).length ≤ lim := by
  unfold sliceJS toIntOr0
  simp only []
  refine le_trans (le_trans (List.length_take_le _ _) ?_) (le_refl lim)
  rw [min_def, min_def, max_def, max_def]
  split_ifs <;> omega

/-- The clamped page, when numeric, is at least 1. -/
theorem effPage_ge_one (q : ListQuery) (p : Int) (h : effPage q = some p) : 1 ≤ p := by
  unfold effPage at h
  cases hpi : parseIntJS (if jsFalsyStr q.page then "1" else q.page.getD "") with
  | none => rw [hpi] at h; simp [maxNaN] at h
  | some v =>
    rw [hpi] at h
    simp only [maxNaN] at h
    injection h with h
    subst h
    exact le_max_left 1 v

/-- The clamped limit, when numeric, lies in `[1, 100]`. -/
theorem effLimit_bounds (q : ListQuery) (l : Int) (h : effLimit q = some l) :
    1 ≤ l ∧ l ≤ 100 := by
  unfold effLimit at h
  cases hpi : parseIntJS (if jsFalsyStr q.limit then "25" else q.limit.getD "") with
  | none => rw [hpi] at h; simp [maxNaN, minNaN] at h
  | some v =>
    rw [hpi] at h
    simp only [maxNaN, minNaN] at h
    injection h with h
    subst h
    constructor
    · exact le_min (by norm_num) (le_max_left 1 v)
    · exact min_le_left _ _

/-- The page slice computed by the listing handlers never exceeds 100
elements. -/
theorem slicePage_length_le (results : List α) (page limit : Option Int)
    (hl : ∀ l, limit = some l → 1 ≤ l ∧ l ≤ 100) :
    (sliceJS results (mulNaN (subNaN page (some 1)) limit)
       (addNaN (mulNaN (subNaN page (some 1)) limit) limit)).length ≤ 100 := by
  cases limit with
  | none => cases page <;> simp [mulNaN, subNaN, addNaN, sliceJS_none_none]
  | some l =>
    obtain ⟨h1, h2⟩ := hl l rfl
    cases page with
    | none => simp [mulNaN, subNaN, addNaN, sliceJS_none_none]
    | some p =>
      simp only [mulNaN, subNaN, addNaN]
      have hc : ((l.toNat : Int)) = l := by omega
      have key := sliceJS_length_le results ((p - 1) * l) l.toNat
      rw [hc] at key
      exact le_trans key (by omega)

/-- Hex digits below 16 are lowercase hex characters. -/
theorem hexDigit_lowerHex : ∀ n, n < 16 → isLowerHexChar (hexDigit n) = true := by decide

/-- Both characters of a byte's hex rendering are lowercase hex. -/
theorem byteHex_all_lowerHex (b : Nat) : (byteHex b).all isLowerHexChar = true := by
  simp only [byteHex, List.all_cons, List.all_nil, Bool.and_true]
  rw [hexDigit_lowerHex _ (Nat.mod_lt _ (by norm_num)),
      hexDigit_lowerHex _ (Nat.mod_lt _ (by norm_num))]
  rfl

/-- The hex rendering of a byte list is twice as long. -/
theorem toHexString_length (bytes : List Nat) :
    (toHexString bytes).length = 2 * bytes.length := by
  show ((bytes.map byteHex).flatten).length = 2 * bytes.length
  induction bytes with
  | nil => rfl
  | cons b bs ih =>
    simp only [List.map_cons, List.flatten_cons, List.length_append, ih, byteHex,
      List.length_cons, List.length_nil]
    omega

/-- Every character of a hex rendering is lowercase hex. -/
theorem toHexString_all_lowerHex (bytes : List Nat) :
    (toHexString bytes).toList.all isLowerHexChar = true := by
  show ((bytes.map byteHex).flatten).all isLowerHexChar = true
  induction bytes with
  | nil => rfl
  | cons b bs ih =>
    simp only [List.map_cons, List.flatten_cons, List.all_append, ih,
      byteHex_all_lowerHex, Bool.and_self]

/-- A SHA-256 digest is exactly 32 bytes. -/
theorem sha256_length (msg : List Nat) : (sha256 msg).length = 32 := by
  simp [sha256, wordBytes]

/-- A generated device UUID is 64 characters long. -/
theorem generateDeviceUUID_length (fp : Fingerprint) :
    (generateDeviceUUID fp).length = 64 := by
  unfold generateDeviceUUID
  rw [toHexString_length, sha256_length]

/-! ## Claim theorems -/

/-- C1: for every risk score in `[0, 1]`, the classification matches the
fixed thresholds exactly — `score ≥ 0.6` is critical, `0.3 ≤ score < 0.6` is
suspicious, `score < 0.3` is normal (boundaries 0.6 and 0.3 included in
critical and suspicious), and the UI badge class agrees with the spec's
threshold classification. -/
theorem C1_classification_thresholds (s : ℚ) (h0 : 0 ≤ s) (h1 : s ≤ 1) :
    (0.6 ≤ s → getRiskBadgeClass s = "risk-badge critical") ∧
    (0.3 ≤ s → s < 0.6 → getRiskBadgeClass s = "risk-badge suspicious") ∧
    (s < 0.3 → getRiskBadgeClass s = "risk-badge normal") ∧
    getRiskBadgeClass s = "risk-badge " ++ statusOfScore s := by
  unfold getRiskBadgeClass statusOfScore
  refine ⟨?_, ?_, ?_, ?_⟩ <;> intros <;> split_ifs <;> first | rfl | linarith

/-- C1 witness: the boundary score 0.6 is classified critical. -/
theorem C1_classification_thresholds_witness :
    getRiskBadgeClass 0.6 = "risk-badge critical" :=
  (C1_classification_thresholds 0.6 (by norm_num) (by norm_num)).1 (by norm_num)

/-- C2: for an actor with role `admin`, a non-empty reason is mandatory —
with a blank reason the UI submits nothing and the backend rejects with a
validation error (no LockRequest, store untouched); with a reason and no
pending duplicate for the same target and action, a `pending` LockRequest
is created and the accounts are unchanged; an existing pending duplicate is
rejected as a conflict with nothing created (spec §4.5 DuplicateRequest). -/
theorem C2_admin_lock_requires_reason (st : WfState) (target action reason : String) :
    ((trimJS reason).isEmpty = true →
       handleLockUnlock "admin" action reason = none ∧
       submitLockRequest st "admin" target action none = (st, .validationError)) ∧
    ((trimJS reason).isEmpty = false →
       handleLockUnlock "admin" action reason =
         some { action := action, reason := some (trimJS reason) } ∧
       (hasPendingDuplicate st.requests target action = false →
         (submitLockRequest st "admin" target action (some (trimJS reason))).2 =
           .requestCreated st.nextId ∧
         (submitLockRequest st "admin" target action
             (some (trimJS reason))).1.accounts = st.accounts ∧
         (submitLockRequest st "admin" target action
             (some (trimJS reason))).1.requests =
           st.requests ++
             [{ id := st.nextId, target_account_id := target, action := action,
                requested_by_role := "admin", reason := some (trimJS reason),
                state := .pending, comment := none }]) ∧
       (hasPendingDuplicate st.requests target action = true →
         submitLockRequest st "admin" target action (some (trimJS reason)) =
           (st, .conflict))) := by
  constructor
  · intro h
    refine ⟨?_, ?_⟩
    · simp [handleLockUnlock, h]
    · simp [submitLockRequest]
  · intro h
    refine ⟨?_, ?_, ?_⟩
    · simp [handleLockUnlock, h]
    · intro hdup
      refine ⟨?_, ?_, ?_⟩ <;> simp [submitLockRequest, hdup]
    · intro hdup
      simp [submitLockRequest, hdup]

/-- C2 witness: a whitespace-only reason is rejected; a real reason on a
duplicate-free store creates a pending request; re-requesting against a
pending duplicate is a conflict. -/
theorem C2_admin_lock_requires_reason_witness :
    (handleLockUnlock "admin" "lock" "  " = none ∧
      submitLockRequest ⟨[⟨"2", false, 0⟩], [], 5⟩ "admin" "2" "lock" none =
        (⟨[⟨"2", false, 0⟩], [], 5⟩, .validationError)) ∧
    handleLockUnlock "admin" "lock" " why " =
      some { action := "lock", reason := some "why" } ∧
    (submitLockRequest ⟨[⟨"2", false, 0⟩], [], 5⟩ "admin" "2" "lock"
        (some "why")).2 = .requestCreated 5 ∧
    (submitLockRequest
        ⟨[⟨"2", false, 0⟩], [⟨5, "2", "lock", "admin", some "why", .pending, none⟩], 6⟩
        "admin" "2" "lock" (some "why")) =
      (⟨[⟨"2", false, 0⟩], [⟨5, "2", "lock", "admin", some "why", .pending, none⟩], 6⟩,
        .conflict) := by
  have h1 := (C2_admin_lock_requires_reason ⟨[⟨"2", false, 0⟩], [], 5⟩ "2" "lock" "  ").1
    (by decide)
  have h2 := (C2_admin_lock_requires_reason ⟨[⟨"2", false, 0⟩], [], 5⟩ "2" "lock" " why ").2
    (by decide)
  have h3 := (C2_admin_lock_requires_reason
    ⟨[⟨"2", false, 0⟩], [⟨5, "2", "lock", "admin", some "why", .pending, none⟩], 6⟩
    "2" "lock" " why ").2 (by decide)
  exact ⟨⟨h1.1, h1.2⟩, h2.1, (h2.2.1 (by decide)).1, h3.2.2 (by decide)⟩

/-- C3: only a superadmin review can move a pending LockRequest — any other
role leaves the whole store unchanged — and a superadmin approve stores the
request directly as `executed` (approval is execution) while reject stores
`rejected` and leaves the accounts untouched. -/
theorem C3_review_superadmin_only (st : WfState) (role : String) (rid : Nat)
    (decision : String) (comment : Option String) :
    (role ≠ "superadmin" → reviewRequest st role rid decision comment = (st, .forbidden)) ∧
    (∀ r : LockRequest, st.requests.find? (fun x => x.id == rid) = some r →
      r.state = .pending →
      ((reviewRequest st "superadmin" rid "approve" comment).1.requests.find?
          (fun x => x.id == rid) =
            some { r with state := .executed, comment := comment } ∧
        (reviewRequest st "superadmin" rid "approve" comment).2 = .executed) ∧
      ((reviewRequest st "superadmin" rid "reject" comment).1.requests.find?
          (fun x => x.id == rid) =
            some { r with state := .rejected, comment := comment } ∧
        (reviewRequest st "superadmin" rid "reject" comment).1.accounts =
          st.accounts ∧
        (reviewRequest st "superadmin" rid "reject" comment).2 = .rejected)) := by
  constructor
  · intro h
    have hb : (role != "superadmin") = true := by
      simp [bne, beq_eq_false_iff_ne.mpr h]
    simp [reviewRequest, hb]
  · intro r hf hp
    have hfind := fun (s : LRState) (c : Option String) =>
      find?_condUpdate (fun x => x.id == rid)
        (fun x => { x with state := s, comment := c })
        (fun a ha => ha) st.requests r hf
    refine ⟨⟨?_, ?_⟩, ?_, ?_, ?_⟩
    · rw [show (reviewRequest st "superadmin" rid "approve" comment).1.requests =
            st.requests.map (fun x =>
              if x.id == rid then { x with state := LRState.executed, comment := comment }
              else x) from by simp [reviewRequest, hf, hp]]
      exact hfind .executed comment
    · simp [reviewRequest, hf, hp]
    · rw [show (reviewRequest st "superadmin" rid "reject" comment).1.requests =
            st.requests.map (fun x =>
              if x.id == rid then { x with state := LRState.rejected, comment := comment }
              else x) from by simp [reviewRequest, hf, hp]]
      exact hfind .rejected comment
    · simp [reviewRequest, hf, hp]
    · simp [reviewRequest, hf, hp]

/-- C3 witness: a non-superadmin review leaves a concrete pending request
untouched; a superadmin approve executes it. -/
theorem C3_review_superadmin_only_witness :
    (reviewRequest ⟨[⟨"2", false, 0⟩],
        [⟨7, "2", "lock", "admin", some "r", .pending, none⟩], 8⟩
      "admin" 7 "approve" none =
      (⟨[⟨"2", false, 0⟩], [⟨7, "2", "lock", "admin", some "r", .pending, none⟩], 8⟩,
        .forbidden)) ∧
    (reviewRequest ⟨[⟨"2", false, 0⟩],
        [⟨7, "2", "lock", "admin", some "r", .pending, none⟩], 8⟩
      "superadmin" 7 "approve" none).2 = .executed := by
  have h := C3_review_superadmin_only
    ⟨[⟨"2", false, 0⟩], [⟨7, "2", "lock", "admin", some "r", .pending, none⟩], 8⟩
    "admin" 7 "approve" none
  exact ⟨h.1 (by decide),
    ((h.2 ⟨7, "2", "lock", "admin", some "r", .pending, none⟩ (by decide) rfl).1).2⟩

/-- C4: a wrong password on an existing unlocked account increments that
account's failure counter, still appends a LoginSession row carrying a risk
assessment of the failed attempt, and returns exactly the same generic error
that an unknown username receives. -/
theorem C4_failed_login_recorded (st : AuthState) (username password : String)
    (geo : GeoContext) (t : Nat) (acct : SAccount)
    (hfind : st.accounts.find? (fun a => a.username == username) = some acct)
    (hid : st.accounts.find? (fun a => a.id == acct.id) = some acct)
    (hunlocked : acct.locked = false)
    (hbad : credentialMatches acct password = false) :
    (loginAttempt st username password geo t).1.accounts.find?
        (fun a => a.id == acct.id) =
      some { acct with failed_login_attempts := acct.failed_login_attempts + 1 } ∧
    (loginAttempt st username password geo t).1.sessions =
      st.sessions ++
        [{ id := st.nextSession, account_id := acct.id,
           risk_score :=
             assessScore false false false (acct.failed_login_attempts + 1 ≥ 3) geo,
           status := statusOfScore
             (assessScore false false false (acct.failed_login_attempts + 1 ≥ 3) geo),
           success := false, login_at := t, logout_at := none, is_active := false }] ∧
    (loginAttempt st username password geo t).2 = .err genericLoginError ∧
    (∀ u p, st.accounts.find? (fun a => a.username == u) = none →
      (loginAttempt st u p geo t).2 = .err genericLoginError) := by
  have hupd := find?_condUpdate (fun a => a.id == acct.id)
      (fun a => { a with failed_login_attempts := acct.failed_login_attempts + 1 })
      (fun a ha => ha) st.accounts acct hid
  refine ⟨?_, ?_, ?_, ?_⟩
  · rw [show (loginAttempt st username password geo t).1.accounts =
        st.accounts.map (fun a =>
          if a.id == acct.id then
            { a with failed_login_attempts := acct.failed_login_attempts + 1 }
          else a) from by simp [loginAttempt, hfind, hunlocked, hbad]]
    exact hupd
  · simp [loginAttempt, hfind, hunlocked, hbad]
  · simp [loginAttempt, hfind, hunlocked, hbad]
  · intro u p hu
    simp [loginAttempt, hu]

/-- C4 witness: a wrong password for `alice` increments her counter and
yields the same generic error as the unknown username `mallory`. -/
theorem C4_failed_login_recorded_witness :
    (loginAttempt ⟨[⟨"1", "alice", "pw", 0, false⟩], [], 0⟩ "alice" "wrong"
        ⟨none, none, none, none, "unknown"⟩ 9).1.accounts.find?
        (fun a => a.id == "1") =
      some ⟨"1", "alice", "pw", 1, false⟩ ∧
    (loginAttempt ⟨[⟨"1", "alice", "pw", 0, false⟩], [], 0⟩ "alice" "wrong"
        ⟨none, none, none, none, "unknown"⟩ 9).2 = .err genericLoginError ∧
    (loginAttempt ⟨[⟨"1", "alice", "pw", 0, false⟩], [], 0⟩ "mallory" "x"
        ⟨none, none, none, none, "unknown"⟩ 9).2 = .err genericLoginError := by
  have h := C4_failed_login_recorded ⟨[⟨"1", "alice", "pw", 0, false⟩], [], 0⟩
    "alice" "wrong" ⟨none, none, none, none, "unknown"⟩ 9 ⟨"1", "alice", "pw", 0, false⟩
    (by decide) (by decide) rfl (by decide)
  exact ⟨h.1, h.2.2.1, h.2.2.2 "mallory" "x" (by decide)⟩

/-- C5: browser coordinates are used as the geo source iff the permission is
granted and both coordinates are numeric; otherwise the resolver falls back
to IP lookup, and when both fail it emits `unknown` with null coordinates,
which the risk engine weighs neutrally (the score never depends on the geo
context). -/
theorem C5_geo_source_policy (browser : Option BrowserLocation) (ip : Option IpLookup) :
    ((resolveGeoContext browser ip).source = "browser" ↔
      (browserCoordHeaders browser).isSome = true) ∧
    (∀ loc : BrowserLocation,
      (browserCoordHeaders (some loc)).isSome = true ↔
        loc.permission_status = "granted" ∧ loc.latitude.isSome = true ∧
          loc.longitude.isSome = true) ∧
    (∀ r, browserCoordHeaders browser = none → ip = some r →
      (resolveGeoContext browser ip).source = "ip_lookup") ∧
    (browserCoordHeaders browser = none → ip = none →
      resolveGeoContext browser ip =
        { country := none, city := none, latitude := none, longitude := none,
          source := "unknown" }) ∧
    (∀ nd cm it fb g g', assessScore nd cm it fb g = assessScore nd cm it fb g') := by
  refine ⟨?_, ?_, ?_, ?_, ?_⟩
  · cases hb : browserCoordHeaders browser with
    | none => cases ip <;> simp [resolveGeoContext, hb]
    | some p => cases p with
      | mk lat lon => simp [resolveGeoContext, hb]
  · intro loc
    by_cases hg : loc.permission_status = "granted"
    · cases hlat : loc.latitude <;> cases hlon : loc.longitude <;>
        simp [browserCoordHeaders, hg, hlat, hlon]
    · have hbeq : (loc.permission_status == "granted") = false :=
        beq_eq_false_iff_ne.mpr hg
      simp [browserCoordHeaders, hbeq, hg]
  · intro r hb hip
    simp [resolveGeoContext, hb, hip]
  · intro hb hip
    simp [resolveGeoContext, hb, hip]
  · intro nd cm it fb g g'
    simp [assessScore]

/-- C5 witness: granted numeric coordinates resolve to the browser source;
with no browser grant and no IP result the context is unknown with null
coordinates. -/
theorem C5_geo_source_policy_witness :
    (resolveGeoContext (some ⟨"granted", some 1, some 2, none⟩) none).source =
      "browser" ∧
    resolveGeoContext none none =
      { country := none, city := none, latitude := none, longitude := none,
        source := "unknown" } := by
  have h1 := C5_geo_source_policy (some ⟨"granted", some 1, some 2, none⟩) none
  have h2 := C5_geo_source_policy none none
  exact ⟨h1.1.mpr rfl, h2.2.2.2.1 rfl rfl⟩

/-- C6: `closeSession` is idempotent — the first call on an existing session
returns ok, and a second call on the already-closed session returns ok and
changes nothing. -/
theorem C6_closeSession_idempotent (st : AuthState) (sid t1 t2 : Nat)
    (h : (st.sessions.find? (fun s => s.id == sid)).isSome = true) :
    (closeSession st sid t1).2 = .ok ∧
    closeSession (closeSession st sid t1).1 sid t2 =
      ((closeSession st sid t1).1, .ok) := by
  obtain ⟨s, hf⟩ := Option.isSome_iff_exists.mp h
  by_cases hact : s.is_active = true
  · have hst1 : closeSession st sid t1 =
        ({ st with sessions := st.sessions.map fun x =>
             if x.id == sid then { x with logout_at := some t1, is_active := false }
             else x }, .ok) := by
      simp [closeSession, hf, hact]
    have hf2 := find?_condUpdate (fun x => x.id == sid)
        (fun x => { x with logout_at := some t1, is_active := false })
        (fun a ha => ha) st.sessions s hf
    simp [-List.find?_map] at hf2
    refine ⟨by rw [hst1], ?_⟩
    rw [hst1]
    simp [closeSession, hf2, -List.find?_map]
  · have hact' : s.is_active = false := by
      simpa using hact
    have hst1 : closeSession st sid t1 = (st, .ok) := by
      simp [closeSession, hf, hact']
    rw [hst1]
    exact ⟨rfl, by simp [closeSession, hf, hact']⟩

/-- C6 witness: closing an open session twice returns ok and leaves the
store where the first call put it. -/
theorem C6_closeSession_idempotent_witness :
    (closeSession ⟨[], [⟨4, "1", 0, "normal", true, 3, none, true⟩], 5⟩ 4 7).2 =
      .ok ∧
    closeSession (closeSession
        ⟨[], [⟨4, "1", 0, "normal", true, 3, none, true⟩], 5⟩ 4 7).1 4 8 =
      ((closeSession ⟨[], [⟨4, "1", 0, "normal", true, 3, none, true⟩], 5⟩ 4 7).1,
        .ok) :=
  C6_closeSession_idempotent ⟨[], [⟨4, "1", 0, "normal", true, 3, none, true⟩], 5⟩
    4 7 8 (by rfl)

/-- C7: a heartbeat carrying a token that does not match the device's issued
secret returns Unauthorized and leaves the registry (including
`last_heartbeat_at`) completely unchanged. -/
theorem C7_heartbeat_wrong_token (reg : List Device) (uuid token : String)
    (t : Nat) (d : Device)
    (hf : reg.find? (fun x => x.device_uuid == uuid) = some d)
    (hne : d.secret_token ≠ token) :
    heartbeat reg uuid token t = (reg, .unauthorized) := by
  have hb : (d.secret_token != token) = true := by
    simp [bne, beq_eq_false_iff_ne.mpr hne]
  simp [heartbeat, hf, hb]

/-- C7 witness: a wrong token against a registered active device is refused
without any registry change. -/
theorem C7_heartbeat_wrong_token_witness :
    heartbeat [⟨"dev-1", "secret", "1", .active, some 10, 1⟩] "dev-1" "bad" 99 =
      ([⟨"dev-1", "secret", "1", .active, some 10, 1⟩], .unauthorized) :=
  C7_heartbeat_wrong_token [⟨"dev-1", "secret", "1", .active, some 10, 1⟩]
    "dev-1" "bad" 99 ⟨"dev-1", "secret", "1", .active, some 10, 1⟩
    (by decide) (by decide)

/-- C8 counterexample: with an empty (falsy) username, no user matches yet
the handler returns 400, not the 401 the claim requires for every
non-matching username. -/
theorem C8_counterexample :
    demoUsers.find? (fun x => x.username == "") = none ∧
    (loginHandler demoUsers { username := some "", password := some "pw" }).status ≠
      401 ∧
    (loginHandler demoUsers { username := some "", password := some "pw" }).status =
      400 := by
  exact ⟨by decide, by decide, by decide⟩

/-- C8 (amended): `POST /login` never reads the password — outcomes are
identical for any two passwords; a missing or empty username yields 400;
otherwise tokens are issued exactly when the username matches an existing
user and 401 is returned otherwise. -/
theorem C8_login_ignores_password (users : List MockUser) (u p1 p2 : Option String) :
    loginHandler users { username := u, password := p1 } =
      loginHandler users { username := u, password := p2 } ∧
    (jsFalsyStr u = true →
      (loginHandler users { username := u, password := p1 }).status = 400) ∧
    (jsFalsyStr u = false →
      ((loginHandler users { username := u, password := p1 }).status = 200 ↔
        (users.find? (fun x => x.username == u.getD "")).isSome = true) ∧
      (users.find? (fun x => x.username == u.getD "") = none →
        loginHandler users { username := u, password := p1 } =
          .unauthorized "Invalid credentials")) := by
  refine ⟨rfl, ?_, ?_⟩
  · intro h
    simp [loginHandler, h, LoginResult.status]
  · intro h
    constructor
    · cases hfd : users.find? (fun x => x.username == u.getD "") <;>
        simp [loginHandler, h, hfd, LoginResult.status]
    · intro hfd
      simp [loginHandler, h, hfd]

/-- C8 witness: alice logs in with either password and gets the same 200
outcome; the unknown user zoe gets 401. -/
theorem C8_login_ignores_password_witness :
    loginHandler demoUsers { username := some "alice", password := some "a" } =
      loginHandler demoUsers { username := some "alice", password := some "b" } ∧
    (loginHandler demoUsers { username := some "alice", password := some "a" }).status =
      200 ∧
    loginHandler demoUsers { username := some "zoe", password := some "a" } =
      .unauthorized "Invalid credentials" := by
  have h1 := C8_login_ignores_password demoUsers (some "alice") (some "a") (some "b")
  have h2 := C8_login_ignores_password demoUsers (some "zoe") (some "a") (some "b")
  exact ⟨h1.1, ((h1.2.2 (by decide)).1).mpr (by decide),
    (h2.2.2 (by decide)).2 (by decide)⟩

/-- C9 counterexample: with `limit=abc`, `parseInt` yields NaN, the clamps
propagate it, and the computed limit is NaN (`none`) — not a value in
`[1, 100]` as the claim states for every request. -/
theorem C9_counterexample :
    effLimit { page := none, limit := some "abc", search := none, role := none,
               action := none, user_id := none } = none ∧
    (adminUsersHandler demoUsers
        { page := none, limit := some "abc", search := none, role := none,
          action := none, user_id := none }).limit = none ∧
    (adminUsersHandler demoUsers
        { page := none, limit := some "abc", search := none, role := none,
          action := none, user_id := none }).items = [] := by
  exact ⟨by decide, by decide, by decide⟩

/-- C9 (amended): whenever page and limit parse as numbers they are clamped
to `page ≥ 1` and `limit ∈ [1, 100]` (on unparseable input the computed
values are NaN and the slice degenerates to an empty page); in every case
the response holds at most 100 items and the reported total equals the count
of records matching the filters, independent of page and limit. -/
theorem C9_pagination_clamped (users : List MockUser) (logs : List MockLog)
    (q : ListQuery) (p' l' : Option String) :
    (adminUsersHandler users q).items.length ≤ 100 ∧
    (adminUsersHandler users q).total = (filterUsers users q).length ∧
    (logsHandler logs q).items.length ≤ 100 ∧
    (logsHandler logs q).total = (filterLogs logs q).length ∧
    (adminUsersHandler users { q with page := p', limit := l' }).total =
      (adminUsersHandler users q).total ∧
    (logsHandler logs { q with page := p', limit := l' }).total =
      (logsHandler logs q).total ∧
    (∀ p : Int, effPage q = some p → 1 ≤ p) ∧
    (∀ l : Int, effLimit q = some l → 1 ≤ l ∧ l ≤ 100) := by
  refine ⟨?_, rfl, ?_, rfl, rfl, rfl, effPage_ge_one q, effLimit_bounds q⟩
  · exact slicePage_length_le (filterUsers users q) (effPage q) (effLimit q)
      (effLimit_bounds q)
  · exact slicePage_length_le (filterLogs logs q) (effPage q) (effLimit q)
      (effLimit_bounds q)

/-- C9 witness: a request for page 3 with limit 1000 is clamped to 100 and
returns at most 100 of the seeded users, with the full total. -/
theorem C9_pagination_clamped_witness :
    (adminUsersHandler demoUsers
        ⟨some "3", some "1000", none, none, none, none⟩).items.length ≤ 100 ∧
    (∀ l : Int, effLimit ⟨some "3", some "1000", none, none, none, none⟩ = some l →
      1 ≤ l ∧ l ≤ 100) := by
  have h := C9_pagination_clamped demoUsers demoLogs
    ⟨some "3", some "1000", none, none, none, none⟩ none none
  exact ⟨h.1, h.2.2.2.2.2.2.2⟩

/-- C10: `generateDeviceUUID` always yields a 64-character lowercase-hex
string and is a pure function of the fingerprint (identical inputs give
identical output); consequently `getOrCreateDeviceUUID` returns the same
UUID on a repeated call against the storage left by the first call. -/
theorem C10_device_uuid_stable (fp : Fingerprint) (store : Option String) :
    (generateDeviceUUID fp).length = 64 ∧
    (generateDeviceUUID fp).toList.all isLowerHexChar = true ∧
    (getOrCreateDeviceUUID fp ((getOrCreateDeviceUUID fp store).2)).1 =
      (getOrCreateDeviceUUID fp store).1 ∧
    (∀ fp₁ fp₂ : Fingerprint, fp₁ = fp₂ →
      generateDeviceUUID fp₁ = generateDeviceUUID fp₂) := by
  have hlen : ((generateDeviceUUID fp).length == 64) = true := by
    rw [generateDeviceUUID_length]
    rfl
  refine ⟨generateDeviceUUID_length fp, ?_, ?_, ?_⟩
  · unfold generateDeviceUUID
    exact toHexString_all_lowerHex _
  · cases store with
    | none => simp [getOrCreateDeviceUUID, hlen]
    | some ex =>
      by_cases hex : (ex.length == 64) = true
      · simp [getOrCreateDeviceUUID, hex]
      · have hex' : (ex.length == 64) = false := by
          simpa using hex
        simp [getOrCreateDeviceUUID, hex', hlen]
  · intro fp₁ fp₂ he
    rw [he]

/-- C10 witness: a concrete fingerprint regenerates its own UUID and the
UUID has 64 characters. -/
theorem C10_device_uuid_stable_witness :
    generateDeviceUUID ⟨"ua", "en-US", "Linux x86_64", 1920, 1080, "UTC"⟩ =
      generateDeviceUUID ⟨"ua", "en-US", "Linux x86_64", 1920, 1080, "UTC"⟩ ∧
    (generateDeviceUUID ⟨"ua", "en-US", "Linux x86_64", 1920, 1080, "UTC"⟩).length =
      64 :=
  ⟨(C10_device_uuid_stable ⟨"ua", "en-US", "Linux x86_64", 1920, 1080, "UTC"⟩
      none).2.2.2 _ _ rfl,
   (C10_device_uuid_stable ⟨"ua", "en-US", "Linux x86_64", 1920, 1080, "UTC"⟩
      none).1⟩

end ZeroTrust
